import Mathlib

/-!
Verification development for the Kurutracker transfer-request lifecycle.

Shallow embedding of:
- items/models.py       (Item, Item.clean, Item.save)
- users/models.py       (User roles and capability properties)
- transfers/models.py   (TransferRequest state machine, TransferLog)
- transfers/views.py    (create_transfer_request, create_return_request views)
- transfers/tasks.py    (check_expiring_requests sweep)
- notifications/utils.py (notify_request_expiring_soon, notify_request_expired)
- items/views.py        (bulk_transfer_items)

Timestamps are modelled as integer seconds. timedelta(days=n) is n*86400
seconds; the sweep's `hours_remaining = total_seconds()/3600` comparisons
`24 <= h < 25` etc. are expressed equivalently on seconds as
`24*3600 <= secs < 25*3600` (exact real division by 3600 preserves the
inequalities).
-/

deriving instance DecidableEq for Except

namespace Kurutracker

/-- Item.Status choices from items/models.py. -/
inductive ItemStatus
  | NORMAL
  | DAMAGED
  | LOST
  | REPAIR
  | PENDING_INSPECTION
  | REMOVED
deriving DecidableEq, Repr

/-- TransferRequest.RequestType choices from transfers/models.py. -/
inductive RequestType
  | ASSIGN
  | RETURN
deriving DecidableEq, Repr

/-- TransferRequest.Status choices from transfers/models.py. -/
inductive RequestStatus
  | PENDING
  | ACCEPTED
  | REJECTED
  | EXPIRED
deriving DecidableEq, Repr

/-- User.Role choices from users/models.py. -/
inductive Role
  | MEMBER
  | STAFF
  | MANAGER
deriving DecidableEq, Repr

/-- The fields of users.models.User that the transfer state machine reads. -/
structure User where
  id : Nat
  role : Role
deriving DecidableEq, Repr

/-- users/models.py User.is_staff_member property. -/
def User.is_staff_member (u : User) : Prop := u.role = Role.STAFF

/-- users/models.py User.is_manager property. -/
def User.is_manager (u : User) : Prop := u.role = Role.MANAGER

/-- users/models.py User.is_staff_or_admin property. -/
def User.is_staff_or_admin (u : User) : Prop :=
  u.role = Role.STAFF ∨ u.role = Role.MANAGER

instance (u : User) : Decidable u.is_staff_member :=
  inferInstanceAs (Decidable (u.role = Role.STAFF))

instance (u : User) : Decidable u.is_manager :=
  inferInstanceAs (Decidable (u.role = Role.MANAGER))

instance (u : User) : Decidable u.is_staff_or_admin :=
  inferInstanceAs (Decidable (u.role = Role.STAFF ∨ u.role = Role.MANAGER))

/-- The fields of items.models.Item that the transfer state machine reads
and writes. Users and locations are referenced by numeric primary key. -/
structure Item where
  id : Nat
  status : ItemStatus
  current_owner : Nat
  current_location : Option Nat
deriving DecidableEq, Repr

/-- items/models.py Item.is_active property. -/
def Item.is_active (i : Item) : Prop :=
  i.status = ItemStatus.NORMAL ∨ i.status = ItemStatus.DAMAGED ∨
    i.status = ItemStatus.PENDING_INSPECTION

/-- items/models.py Item.is_inactive property. -/
def Item.is_inactive (i : Item) : Prop :=
  i.status = ItemStatus.REPAIR ∨ i.status = ItemStatus.LOST ∨
    i.status = ItemStatus.REMOVED

instance (i : Item) : Decidable i.is_active :=
  inferInstanceAs (Decidable (i.status = ItemStatus.NORMAL ∨ _ ∨ _))

instance (i : Item) : Decidable i.is_inactive :=
  inferInstanceAs (Decidable (i.status = ItemStatus.REPAIR ∨ _ ∨ _))

/-- Error taxonomy. The embedded code only ever produces `validationError`,
`integrityError` (the database unique-constraint violation), `typeError`
(Python call-convention violation) and `viewRedirect` (a view answering
with messages.error + redirect, which is not a ValidationError).
`permissionError` and `invalidStateError` exist in order to state spec
claims that name those error kinds. -/
inductive Err
  | validationError (msg : String)
  | integrityError (msg : String)
  | typeError (msg : String)
  | viewRedirect (msg : String)
  | permissionError (msg : String)
  | invalidStateError (msg : String)
deriving DecidableEq, Repr

/-- Whether an Except result is a PermissionError. -/
def isPermissionError {α : Type} : Except Err α → Bool
  | .error (.permissionError _) => true
  | _ => false

/-- The fields of transfers.models.TransferRequest. Users, the item and
locations are referenced by numeric primary key; timestamps are integer
seconds. -/
structure Request where
  id : Nat
  request_type : RequestType
  status : RequestStatus
  from_user : Nat
  to_user : Nat
  item : Nat
  notes : String
  new_status : Option ItemStatus
  resolved_at : Option Int
  expires_at : Option Int
  original_item_status : Option ItemStatus
  expiration_extended_until : Option Int
  manually_expired_by : Option Nat
  warning_48h_sent : Bool
  warning_24h_sent : Bool
deriving DecidableEq, Repr

/-- A transfers.models.TransferLog row. -/
structure LogRow where
  item : Option Nat
  from_user : Nat
  to_user : Nat
  request : Option Nat
  notes : String
  is_forced : Bool
deriving DecidableEq, Repr

/-- A notifications.models.Notification row (only the fields the claims
mention). -/
structure Notif where
  recipient : Nat
  kind : String
  related_request : Option Nat
deriving DecidableEq, Repr

/-- Seconds in a day (timedelta(days=1)). -/
def secPerDay : Int := 86400

/-- Seconds in an hour. -/
def secPerHour : Int := 3600

/-- items/models.py Item.save for an already-persisted row: it re-reads the
stored row to set `_original_owner`, runs full_clean (hence Item.clean),
then writes. Item.clean raises ValidationError when the row being saved
has an inactive status while current_owner differs from the stored owner.
`stored` is the row currently in the database, `updated` the instance
being saved. On error nothing is written. -/
def itemSave (stored updated : Item) : Except Err Item :=
  if updated.is_inactive ∧ stored.current_owner ≠ updated.current_owner then
    .error (.validationError "Cannot transfer item with inactive status. Only items with status Normal, Damaged, or Pending Inspection can be transferred.")
  else
    .ok updated

/-- transfers/models.py TransferRequest.save on first insert (no pk):
default `expires_at` to now + 7 days when unset, and for RETURN requests
capture the item's current status into `original_item_status` when unset. -/
def requestSaveNew (req : Request) (item : Item) (now : Int) : Request :=
  let r1 :=
    if req.expires_at = none then
      { req with expires_at := some (now + 7 * secPerDay) }
    else req
  if r1.request_type = RequestType.RETURN ∧ r1.original_item_status = none then
    { r1 with original_item_status := some item.status }
  else r1

/-- transfers/models.py TransferRequest.clean: reject inactive items, a
RETURN whose from_user does not own the item, and an ACCEPTED RETURN
without new_status. -/
def requestClean (req : Request) (item : Item) : Except Err Unit :=
  if item.is_inactive then
    .error (.validationError "Cannot transfer item with this status. Only items with status Normal, Damaged, or Pending Inspection can be transferred.")
  else if req.request_type = RequestType.RETURN ∧ req.from_user ≠ item.current_owner then
    .error (.validationError "User does not own item.")
  else if req.request_type = RequestType.RETURN ∧ req.status = RequestStatus.ACCEPTED ∧
      req.new_status = none then
    .error (.validationError "New status is required when accepting a return request.")
  else
    .ok ()

/-- transfers/models.py TransferRequest.accept. `item` is the item row the
request references. The whole method runs in one transaction: an error
(including the ValidationError raised by Item.clean inside item.save)
rolls everything back, so an error result carries no mutation. On success
it returns the updated request, the updated item and the appended
TransferLog row. -/
def accept (req : Request) (item : Item) (actor : User) (new_status : Option ItemStatus)
    (current_location : Option Nat) (now : Int) : Except Err (Request × Item × LogRow) :=
  if req.status ≠ RequestStatus.PENDING then
    .error (.validationError "Cannot accept request that is not PENDING.")
  else if req.request_type = RequestType.RETURN ∧
      ¬(actor.is_staff_member ∨ actor.is_manager) then
    .error (.validationError "Only staff members can accept return requests.")
  else if req.request_type = RequestType.RETURN ∧ new_status = none then
    .error (.validationError "New status is required when accepting a return.")
  else if req.request_type = RequestType.ASSIGN ∧ actor.id ≠ req.to_user then
    .error (.validationError "Only the assigned user can accept this request.")
  else if req.request_type = RequestType.ASSIGN ∧ current_location = none then
    .error (.validationError "Current location is required when accepting an assignment.")
  else
    let req1 : Request :=
      { req with
        status := RequestStatus.ACCEPTED
        resolved_at := some now
        new_status := if new_status = none then req.new_status else new_status }
    let old_owner := item.current_owner
    let target :=
      if req.request_type = RequestType.RETURN then actor.id else req.to_user
    let item1 : Item :=
      { item with
        current_owner := target
        status := match new_status with | some s => s | none => item.status
        current_location :=
          match current_location with
          | some l => some l
          | none => item.current_location }
    match itemSave item item1 with
    | .error e => .error e
    | .ok item2 =>
        .ok (req1, item2,
          { item := some item.id, from_user := old_owner, to_user := target,
            request := some req.id, notes := req.notes, is_forced := false })

/-- transfers/models.py TransferRequest.reject. On success returns the
updated request and item. -/
def reject (req : Request) (item : Item) (actor : User) (reason : Option String)
    (now : Int) : Except Err (Request × Item) :=
  if req.status ≠ RequestStatus.PENDING then
    .error (.validationError "Cannot reject request that is not PENDING.")
  else if req.request_type = RequestType.RETURN ∧
      ¬(actor.is_staff_member ∨ actor.is_manager) then
    .error (.validationError "Only staff members can reject return requests.")
  else if req.request_type = RequestType.ASSIGN ∧ actor.id ≠ req.to_user then
    .error (.validationError "Only the assigned user can reject this request.")
  else
    let req1 : Request :=
      { req with
        status := RequestStatus.REJECTED
        resolved_at := some now
        notes :=
          match reason with
          | some r => (req.notes ++ "\n[REJECTED] " ++ r).trim
          | none => req.notes }
    if req.request_type = RequestType.RETURN ∧ item.status = ItemStatus.PENDING_INSPECTION then
      match itemSave item { item with status := ItemStatus.NORMAL } with
      | .error e => .error e
      | .ok item1 => .ok (req1, item1)
    else
      .ok (req1, item)

/-- transfers/models.py TransferRequest.expire. The method locks the item
row and re-reads it; `item` here is that current row. For RETURN requests
it reverts a still-PENDING_INSPECTION item to the captured
original_item_status when present, falling back to NORMAL. -/
def expire (req : Request) (item : Item) (expired_by : Option Nat) (now : Int) :
    Except Err (Request × Item) :=
  if req.status ≠ RequestStatus.PENDING then
    .error (.validationError "Cannot expire request that is not PENDING.")
  else
    let req1 : Request :=
      { req with
        status := RequestStatus.EXPIRED
        resolved_at := some now
        manually_expired_by :=
          match expired_by with
          | some u => some u
          | none => req.manually_expired_by }
    if req.request_type = RequestType.RETURN then
      match req.original_item_status with
      | some orig =>
          if item.status = ItemStatus.PENDING_INSPECTION then
            match itemSave item { item with status := orig } with
            | .error e => .error e
            | .ok item1 => .ok (req1, item1)
          else
            .ok (req1, item)
      | none =>
          if item.status = ItemStatus.PENDING_INSPECTION then
            match itemSave item { item with status := ItemStatus.NORMAL } with
            | .error e => .error e
            | .ok item1 => .ok (req1, item1)
          else
            .ok (req1, item)
    else
      .ok (req1, item)

/-- transfers/models.py TransferRequest.extend_expiration: manager-only,
PENDING-only; new deadline = current effective deadline + days; resets
both warning flags. The method never touches the item. Both failure
paths raise ValidationError. -/
def extend_expiration (req : Request) (days : Int) (actor : User) : Except Err Request :=
  if ¬actor.is_manager then
    .error (.validationError "Only managers can extend expiration deadlines.")
  else if req.status ≠ RequestStatus.PENDING then
    .error (.validationError "Cannot extend request that is not PENDING.")
  else
    match req.expiration_extended_until with
    | some d =>
        .ok { req with
              expiration_extended_until := some (d + days * secPerDay)
              warning_48h_sent := false
              warning_24h_sent := false }
    | none =>
        match req.expires_at with
        | some d =>
            .ok { req with
                  expiration_extended_until := some (d + days * secPerDay)
                  warning_48h_sent := false
                  warning_24h_sent := false }
        | none =>
            .error (.validationError "Cannot extend request without expiration date.")

/-- The database-level partial unique constraint
`unique_pending_request_per_item` from TransferRequest.Meta: an insert of
a PENDING request for an item that already has a PENDING request fails
with IntegrityError; otherwise the row is appended. -/
def insertPendingUnique (existing : List Request) (r : Request) : Except Err (List Request) :=
  if r.status = RequestStatus.PENDING ∧
      (existing.any fun x => x.item = r.item ∧ x.status = RequestStatus.PENDING) then
    .error (.integrityError "unique_pending_request_per_item")
  else
    .ok (existing ++ [r])

/-- At most one PENDING TransferRequest per item, over a table of request
rows. -/
def atMostOnePending (rs : List Request) : Prop :=
  ∀ i : Nat,
    (rs.countP fun r => decide (r.item = i ∧ r.status = RequestStatus.PENDING)) ≤ 1

/-- transfers/views.py create_transfer_request (the ASSIGN path): form
validation runs TransferRequest.clean via full_clean; the view then
rejects REPAIR/LOST/REMOVED items and items that already have a PENDING
request with messages.error + redirect; otherwise it saves the request
(TransferRequest.save sets expires_at), which the database checks against
the partial unique constraint. Returns the new request row and the new
request table. -/
def create_transfer_request_view (existing : List Request) (item : Item) (from_u : User)
    (to_u : Nat) (notes : String) (now : Int) (newId : Nat) :
    Except Err (Request × List Request) :=
  let probe : Request :=
    { id := newId, request_type := RequestType.ASSIGN, status := RequestStatus.PENDING,
      from_user := from_u.id, to_user := to_u, item := item.id, notes := notes,
      new_status := none, resolved_at := none, expires_at := none,
      original_item_status := none, expiration_extended_until := none,
      manually_expired_by := none, warning_48h_sent := false, warning_24h_sent := false }
  match requestClean probe item with
  | .error e => .error e
  | .ok _ =>
    if item.status = ItemStatus.REPAIR ∨ item.status = ItemStatus.LOST ∨
        item.status = ItemStatus.REMOVED then
      .error (.viewRedirect "Cannot transfer item. Items with this status cannot be transferred.")
    else if existing.any fun x => x.item = item.id ∧ x.status = RequestStatus.PENDING then
      .error (.viewRedirect "Item already has a pending transfer request.")
    else
      let r1 := requestSaveNew probe item now
      match insertPendingUnique existing r1 with
      | .error e => .error e
      | .ok rows => .ok (r1, rows)

/-- transfers/views.py create_return_request: checks only that the
requester owns the item and that a staff pool exists, then persists the
RETURN request with TransferRequest.objects.create — which runs
TransferRequest.save but NOT clean/full_clean — and finally sets the item
to PENDING_INSPECTION and saves it. `staff_users` is the queryset of
active STAFF/MANAGER users; the request goes to the first of them. -/
def create_return_request_view (existing : List Request) (item : Item) (requester : User)
    (staff_users : List User) (notes : String) (now : Int) (newId : Nat) :
    Except Err (Request × Item × List Request) :=
  if item.current_owner ≠ requester.id then
    .error (.viewRedirect "You can only return items you own.")
  else
    match staff_users with
    | [] => .error (.viewRedirect "No staff members available to receive return.")
    | staff :: _ =>
      let req0 : Request :=
        { id := newId, request_type := RequestType.RETURN, status := RequestStatus.PENDING,
          from_user := requester.id, to_user := staff.id, item := item.id, notes := notes,
          new_status := none, resolved_at := none, expires_at := none,
          original_item_status := none, expiration_extended_until := none,
          manually_expired_by := none, warning_48h_sent := false, warning_24h_sent := false }
      let req1 := requestSaveNew req0 item now
      match insertPendingUnique existing req1 with
      | .error e => .error e
      | .ok rows =>
        match itemSave item { item with status := ItemStatus.PENDING_INSPECTION } with
        | .error e => .error e
        | .ok item1 => .ok (req1, item1, rows)

/-- Modelled from the spec: `TransferRequest.cancel`. transfers/views.py
cancel_request calls `transfer.cancel(request.user, reason=reason)`, but
no `cancel` method is defined in src/transfers/models.py. Per spec §4.1,
cancel is a terminal transition available to either party (from_user or
to_user) while PENDING, with semantics equivalent to reject but
attributable to either side, kept distinct only for notification
wording. -/
def cancel (req : Request) (item : Item) (actor : User) (reason : Option String)
    (now : Int) : Except Err (Request × Item) :=
  if req.status ≠ RequestStatus.PENDING then
    .error (.validationError "Cannot cancel request that is not PENDING.")
  else if actor.id ≠ req.from_user ∧ actor.id ≠ req.to_user then
    .error (.validationError "Only the parties to a request can cancel it.")
  else
    let req1 : Request :=
      { req with
        status := RequestStatus.REJECTED
        resolved_at := some now
        notes :=
          match reason with
          | some r => (req.notes ++ "\n[CANCELLED] " ++ r).trim
          | none => req.notes }
    if req.request_type = RequestType.RETURN ∧ item.status = ItemStatus.PENDING_INSPECTION then
      match itemSave item { item with status := ItemStatus.NORMAL } with
      | .error e => .error e
      | .ok item1 => .ok (req1, item1)
    else
      .ok (req1, item)

/-- items/views.py bulk_transfer_items, confirmation step: inside one
transaction, reassign every selected item to new_owner via item.save and
append a forced TransferLog row per item. Any ValidationError raised by
Item.clean aborts (and rolls back) the whole batch. -/
def bulkStep (new_owner : Nat) (notes : String)
    (acc : Except Err (List Item × List LogRow)) (item : Item) :
    Except Err (List Item × List LogRow) :=
  match acc with
  | .error e => .error e
  | .ok (is, ls) =>
    match itemSave item { item with current_owner := new_owner } with
    | .error e => .error e
    | .ok i1 =>
        .ok (is ++ [i1],
          ls ++ [{ item := some item.id, from_user := item.current_owner,
                   to_user := new_owner, request := none, notes := notes,
                   is_forced := true }])

/-- items/views.py bulk_transfer_items over the locked candidate rows. -/
def bulk_transfer_items (items : List Item) (new_owner : Nat) (notes : String) :
    Except Err (List Item × List LogRow) :=
  items.foldl (bulkStep new_owner notes) (.ok ([], []))

/-- Parameter names of notifications/utils.py
notify_request_expiring_soon, in definition order. -/
def notifyExpiringSoonParams : List String := ["transfer_request", "days_remaining"]

/-- A Python call to notify_request_expiring_soon with the request passed
positionally and the remaining arguments by keyword. Python raises
TypeError when a keyword does not name a parameter; on success the
function creates one REQUEST_EXPIRING_SOON notification for the
request's to_user. -/
def callNotifyExpiringSoon (notifs : List Notif) (req : Request) (kwargs : List String) :
    Except Err (List Notif) :=
  if kwargs.all fun k => notifyExpiringSoonParams.contains k then
    .ok (notifs ++ [{ recipient := req.to_user, kind := "REQUEST_EXPIRING_SOON",
                      related_request := some req.id }])
  else
    .error (.typeError "notify_request_expiring_soon() got an unexpected keyword argument")

/-- notifications/utils.py notify_request_expired: one REQUEST_EXPIRED
notification each for from_user and to_user (called with its single
argument positionally, so no call-convention issue). -/
def notifyRequestExpired (notifs : List Notif) (req : Request) : List Notif :=
  notifs ++
    [{ recipient := req.from_user, kind := "REQUEST_EXPIRED", related_request := some req.id },
     { recipient := req.to_user, kind := "REQUEST_EXPIRED", related_request := some req.id }]

/-- Replace the request row with the given id. -/
def updateReq (rs : List Request) (r : Request) : List Request :=
  rs.map fun x => if x.id = r.id then r else x

/-- Replace the item row with the given id. -/
def updateItem (is : List Item) (i : Item) : List Item :=
  is.map fun x => if x.id = i.id then i else x

/-- The evolving state of one check_expiring_requests run: the request and
item tables, the notifications created so far, and the stats counters. -/
structure SweepState where
  requests : List Request
  items : List Item
  notifs : List Notif
  warnings_48h : Nat
  warnings_24h : Nat
  expired : Nat
  errors : Nat
deriving DecidableEq, Repr

/-- One iteration of the loop in transfers/tasks.py check_expiring_requests
for the prefetched pending request `req`. The effective deadline is
expiration_extended_until or expires_at; hours_remaining comparisons are
expressed on seconds. The 24h/48h branches first call
notify_request_expiring_soon with the keyword argument hours_remaining
(the flag update and save come after the call); any exception is caught,
counted in errors, and processing continues. Expiry goes through
_expire_request: re-read under lock, double-check PENDING, call
TransferRequest.expire, then notify both parties. -/
def sweepOne (now : Int) (s : SweepState) (req : Request) : SweepState :=
  match (match req.expiration_extended_until with
         | some d => some d
         | none => req.expires_at) with
  | none => s
  | some deadline =>
    let secs := deadline - now
    if secs ≤ 0 then
      match s.requests.find? fun r => r.id = req.id with
      | none => { s with errors := s.errors + 1 }
      | some locked =>
        if locked.status ≠ RequestStatus.PENDING then s
        else
          match s.items.find? fun i => i.id = locked.item with
          | none => { s with errors := s.errors + 1 }
          | some item =>
            match expire locked item none now with
            | .error _ => { s with errors := s.errors + 1 }
            | .ok (r1, i1) =>
                { s with
                  requests := updateReq s.requests r1
                  items := updateItem s.items i1
                  notifs := notifyRequestExpired s.notifs r1
                  expired := s.expired + 1 }
    else if 24 * secPerHour ≤ secs ∧ secs < 25 * secPerHour ∧ req.warning_24h_sent = false then
      match callNotifyExpiringSoon s.notifs req ["hours_remaining"] with
      | .error _ => { s with errors := s.errors + 1 }
      | .ok ns =>
          { s with
            notifs := ns
            requests := updateReq s.requests { req with warning_24h_sent := true }
            warnings_24h := s.warnings_24h + 1 }
    else if 48 * secPerHour ≤ secs ∧ secs < 49 * secPerHour ∧ req.warning_48h_sent = false then
      match callNotifyExpiringSoon s.notifs req ["hours_remaining"] with
      | .error _ => { s with errors := s.errors + 1 }
      | .ok ns =>
          { s with
            notifs := ns
            requests := updateReq s.requests { req with warning_48h_sent := true }
            warnings_48h := s.warnings_48h + 1 }
    else s

/-- transfers/tasks.py check_expiring_requests: snapshot the PENDING
requests, then process each one with sweepOne. -/
def check_expiring_requests (requests : List Request) (items : List Item) (now : Int) :
    SweepState :=
  let pending := requests.filter fun r => r.status = RequestStatus.PENDING
  pending.foldl (sweepOne now)
    { requests := requests, items := items, notifs := [],
      warnings_48h := 0, warnings_24h := 0, expired := 0, errors := 0 }

/-! ## Concrete fixtures -/

/-- A staff user. -/
def alice : User := { id := 1, role := Role.STAFF }

/-- A member user. -/
def bob : User := { id := 2, role := Role.MEMBER }

/-- A second staff user. -/
def carol : User := { id := 3, role := Role.STAFF }

/-- A manager user. -/
def mia : User := { id := 4, role := Role.MANAGER }

/-- An item pending a sweep fixture. -/
def itemA : Item :=
  { id := 10, status := ItemStatus.NORMAL, current_owner := 2, current_location := none }

/-- A PENDING ASSIGN request whose effective deadline is 24.5 hours
(88200 seconds) after time 0, with both warning flags unset. -/
def req24 : Request :=
  { id := 100, request_type := RequestType.ASSIGN, status := RequestStatus.PENDING,
    from_user := 1, to_user := 2, item := 10, notes := "",
    new_status := none, resolved_at := none, expires_at := some 88200,
    original_item_status := none, expiration_extended_until := none,
    manually_expired_by := none, warning_48h_sent := false, warning_24h_sent := false }

/-- An item frozen under repair, owned by bob. -/
def itemRepair : Item :=
  { id := 20, status := ItemStatus.REPAIR, current_owner := 2, current_location := none }

/-- The RETURN request that create_return_request persists for itemRepair
at time 0 with fresh id 7. -/
def reqRepairReturn : Request :=
  { id := 7, request_type := RequestType.RETURN, status := RequestStatus.PENDING,
    from_user := 2, to_user := 3, item := 20, notes := "",
    new_status := none, resolved_at := none, expires_at := some 604800,
    original_item_status := some ItemStatus.REPAIR, expiration_extended_until := none,
    manually_expired_by := none, warning_48h_sent := false, warning_24h_sent := false }

/-- A PENDING RETURN request from bob, with the item under inspection. -/
def reqReturn : Request :=
  { id := 30, request_type := RequestType.RETURN, status := RequestStatus.PENDING,
    from_user := 2, to_user := 3, item := 30, notes := "",
    new_status := none, resolved_at := none, expires_at := some 604800,
    original_item_status := some ItemStatus.NORMAL, expiration_extended_until := none,
    manually_expired_by := none, warning_48h_sent := false, warning_24h_sent := false }

/-- The item of reqReturn, awaiting inspection, still owned by bob. -/
def itemReturn : Item :=
  { id := 30, status := ItemStatus.PENDING_INSPECTION, current_owner := 2,
    current_location := none }

/-- A PENDING ASSIGN request with a deadline, for the extend claims. -/
def reqExtend : Request :=
  { id := 40, request_type := RequestType.ASSIGN, status := RequestStatus.PENDING,
    from_user := 1, to_user := 2, item := 10, notes := "",
    new_status := none, resolved_at := none, expires_at := some 1000,
    original_item_status := none, expiration_extended_until := none,
    manually_expired_by := none, warning_48h_sent := true, warning_24h_sent := true }

/-- An already-ACCEPTED ASSIGN request, for the terminal-state claims. -/
def reqAccepted : Request :=
  { id := 50, request_type := RequestType.ASSIGN, status := RequestStatus.ACCEPTED,
    from_user := 1, to_user := 2, item := 10, notes := "",
    new_status := none, resolved_at := some 5, expires_at := some 604800,
    original_item_status := none, expiration_extended_until := none,
    manually_expired_by := none, warning_48h_sent := false, warning_24h_sent := false }

/-! ## Claim theorems -/

/-- C1: the claim says one sweep run over a PENDING request with
24 ≤ hours remaining < 25 and warning_24h_sent = false sends exactly one
24h warning to to_user and sets the flag. In the code, tasks.py line 67
calls notify_request_expiring_soon(request, hours_remaining=24), but the
function's signature (notifications/utils.py line 151) is
(transfer_request, days_remaining): the call raises TypeError before the
flag assignment, the per-request except swallows it as an error, and the
sweep ends with no notification created, the flag still false, and
errors = 1 — warnings_24h stays 0. -/
theorem sweep_24h_warning_typeerror :
    check_expiring_requests [req24] [itemA] 0 =
      { requests := [req24], items := [itemA], notifs := [],
        warnings_48h := 0, warnings_24h := 0, expired := 0, errors := 1 } ∧
    callNotifyExpiringSoon [] req24 ["hours_remaining"] =
      .error (.typeError "notify_request_expiring_soon() got an unexpected keyword argument") := by
  constructor <;> decide

/-- C5: the claim says every create attempt on a REPAIR/LOST/REMOVED item
fails with ValidationError and persists nothing. TransferRequest.clean
would indeed reject such an item, but transfers/views.py
create_return_request persists with TransferRequest.objects.create, which
never runs clean: a member who owns a REPAIR item successfully creates a
RETURN request for it and the item is moved to PENDING_INSPECTION. -/
theorem create_return_bypasses_validation :
    create_return_request_view [] itemRepair bob [carol] "" 0 7 =
      .ok (reqRepairReturn,
        { id := 20, status := ItemStatus.PENDING_INSPECTION, current_owner := 2,
          current_location := none },
        [reqRepairReturn]) ∧
    requestClean reqRepairReturn itemRepair =
      .error (.validationError "Cannot transfer item with this status. Only items with status Normal, Damaged, or Pending Inspection can be transferred.") := by
  constructor <;> decide

/-- C6 counterexample: the claim says accept of a PENDING RETURN request by
staff succeeds for ANY non-REMOVED new_status, including LOST and REPAIR.
With new_status = REPAIR and the ownership transfer to the accepting
staff user (carol), Item.clean inside item.save raises ValidationError —
the saved row would have an inactive status while current_owner changes —
so the whole accept fails. -/
theorem accept_return_counterexample :
    accept reqReturn itemReturn carol (some ItemStatus.REPAIR) none 100 =
      .error (.validationError "Cannot transfer item with inactive status. Only items with status Normal, Damaged, or Pending Inspection can be transferred.") := by
  decide

/-- C9 counterexample: the claim says extend by a non-manager fails with
PermissionError. The code (TransferRequest.extend_expiration) raises
ValidationError("Only managers can extend expiration deadlines."), not a
PermissionError: here staff user carol attempts the extension. -/
theorem extend_permission_counterexample :
    extend_expiration reqExtend 5 carol =
      .error (.validationError "Only managers can extend expiration deadlines.") ∧
    isPermissionError (extend_expiration reqExtend 5 carol) = false := by
  constructor <;> decide

/-- C3: accept, reject and expire on a request already in a terminal state
(ACCEPTED, REJECTED or EXPIRED) all raise ValidationError. Each embedded
operation returns an error before constructing any updated state, and the
source methods run inside one transaction, so an error result means the
request, the item and the transfer-log table are untouched. -/
theorem terminal_transitions_error (req : Request) (item : Item) (actor : User)
    (ns : Option ItemStatus) (loc : Option Nat) (reason : Option String)
    (eby : Option Nat) (now : Int)
    (h : req.status = RequestStatus.ACCEPTED ∨ req.status = RequestStatus.REJECTED ∨
      req.status = RequestStatus.EXPIRED) :
    accept req item actor ns loc now =
      .error (.validationError "Cannot accept request that is not PENDING.") ∧
    reject req item actor reason now =
      .error (.validationError "Cannot reject request that is not PENDING.") ∧
    expire req item eby now =
      .error (.validationError "Cannot expire request that is not PENDING.") := by
  have hne : req.status ≠ RequestStatus.PENDING := by
    rcases h with h | h | h <;> simp [h]
  refine ⟨?_, ?_, ?_⟩ <;> simp [accept, reject, expire, hne]

/-- Witness for C3 at an already-ACCEPTED request. -/
theorem terminal_transitions_error_witness :
    accept reqAccepted itemA carol none none 9 =
      .error (.validationError "Cannot accept request that is not PENDING.") ∧
    reject reqAccepted itemA carol none 9 =
      .error (.validationError "Cannot reject request that is not PENDING.") ∧
    expire reqAccepted itemA none 9 =
      .error (.validationError "Cannot expire request that is not PENDING.") :=
  terminal_transitions_error reqAccepted itemA carol none none none none 9 (Or.inl rfl)

/-- C8: for a manager actor and a PENDING request whose effective deadline
(extension if set, else expires_at) is d, extend by N days yields exactly
the same request with expiration_extended_until = d + N days and both
warning flags reset to false; the record-update form shows expires_at and
status (and every other field) unchanged, and extend_expiration never
reads or writes the item. -/
theorem extend_effective_deadline (req : Request) (days : Int) (actor : User) (d : Int)
    (hm : actor.is_manager) (hp : req.status = RequestStatus.PENDING)
    (hd : (match req.expiration_extended_until with
           | some x => some x
           | none => req.expires_at) = some d) :
    extend_expiration req days actor =
      .ok { req with
            expiration_extended_until := some (d + days * secPerDay)
            warning_48h_sent := false
            warning_24h_sent := false } := by
  rcases hext : req.expiration_extended_until with _ | x
  · rw [hext] at hd
    have hd' : req.expires_at = some d := hd
    simp [extend_expiration, hm, hp, hext, hd']
  · rw [hext] at hd
    have hx : x = d := by injection hd
    subst hx
    simp [extend_expiration, hm, hp, hext]

/-- Witness for C8: manager mia extends a pending request whose effective
deadline is its expires_at value 1000 by 3 days. -/
theorem extend_effective_deadline_witness :
    extend_expiration reqExtend 3 mia =
      .ok { reqExtend with
            expiration_extended_until := some (1000 + 3 * secPerDay)
            warning_48h_sent := false
            warning_24h_sent := false } :=
  extend_effective_deadline reqExtend 3 mia 1000 (by decide) rfl rfl

/-- C9 amended: extend by an actor lacking manager capability fails with
ValidationError (not PermissionError), and a manager extending a
non-PENDING request also gets a ValidationError (not a distinct
InvalidStateError); in both cases the error is returned before any field
is written. -/
theorem extend_validation_errors (req : Request) (days : Int) (actor : User) :
    (¬actor.is_manager →
      extend_expiration req days actor =
        .error (.validationError "Only managers can extend expiration deadlines.")) ∧
    (actor.is_manager → req.status ≠ RequestStatus.PENDING →
      extend_expiration req days actor =
        .error (.validationError "Cannot extend request that is not PENDING.")) := by
  constructor
  · intro h
    simp [extend_expiration, h]
  · intro hm hs
    simp [extend_expiration, hm, hs]

/-- Witness for C9's amended claim: staff carol is refused, and manager mia
is refused on an ACCEPTED request. -/
theorem extend_validation_errors_witness :
    extend_expiration reqExtend 2 carol =
      .error (.validationError "Only managers can extend expiration deadlines.") ∧
    extend_expiration reqAccepted 2 mia =
      .error (.validationError "Cannot extend request that is not PENDING.") :=
  ⟨(extend_validation_errors reqExtend 2 carol).1 (by decide),
   (extend_validation_errors reqAccepted 2 mia).2 (by decide) (by decide)⟩

/-- An error accumulator absorbs the rest of a bulk-transfer fold (the
transaction has already failed). -/
theorem bulkStep_foldl_error (o : Nat) (n : String) (e : Err) (l : List Item) :
    l.foldl (bulkStep o n) (.error e) = .error e := by
  induction l with
  | nil => rfl
  | cons a t ih => simpa [List.foldl_cons, bulkStep] using ih

/-- A frozen item whose owner would change anywhere in the batch makes the
whole bulk-transfer fold fail with the Item.clean ValidationError. -/
theorem bulk_foldl_frozen (o : Nat) (n : String) :
    ∀ (l : List Item) (s : List Item × List LogRow),
      (∃ i ∈ l, i.is_inactive ∧ i.current_owner ≠ o) →
      l.foldl (bulkStep o n) (.ok s) =
        .error (.validationError "Cannot transfer item with inactive status. Only items with status Normal, Damaged, or Pending Inspection can be transferred.") := by
  intro l
  induction l with
  | nil =>
      intro s h
      simp at h
  | cons a t ih =>
      intro s h
      by_cases ha : a.is_inactive ∧ a.current_owner ≠ o
      · have hsave : itemSave a { a with current_owner := o } =
            .error (.validationError "Cannot transfer item with inactive status. Only items with status Normal, Damaged, or Pending Inspection can be transferred.") := by
          unfold itemSave
          rw [if_pos]
          exact ⟨ha.1, ha.2⟩
        simp [List.foldl_cons, bulkStep, hsave, bulkStep_foldl_error]
      · have hsave : itemSave a { a with current_owner := o } =
            .ok { a with current_owner := o } := by
          unfold itemSave
          rw [if_neg]
          exact fun hcon => ha ⟨hcon.1, hcon.2⟩
        obtain ⟨i, hi, hprop⟩ := h
        rcases List.mem_cons.mp hi with rfl | hit
        · exact absurd hprop ha
        · simpa [List.foldl_cons, bulkStep, hsave] using ih _ ⟨i, hit, hprop⟩

/-- C10: a save of an existing Item whose saved status is REPAIR, LOST or
REMOVED while current_owner differs from the stored owner always fails
with the Item.clean ValidationError — including when the freezing status
is written in the same save — and consequently a bulk transfer whose
locked row set contains a frozen item owned by someone other than the
target owner aborts with that same error (one transaction, so no item in
the batch is reassigned). TransferRequest.accept goes through the same
itemSave, which is what accept_return_counterexample exercises. -/
theorem frozen_item_owner_save_fails (stored updated : Item) (items : List Item)
    (owner : Nat) (notes : String)
    (h1 : updated.is_inactive) (h2 : stored.current_owner ≠ updated.current_owner)
    (h3 : ∃ i ∈ items, i.is_inactive ∧ i.current_owner ≠ owner) :
    itemSave stored updated =
      .error (.validationError "Cannot transfer item with inactive status. Only items with status Normal, Damaged, or Pending Inspection can be transferred.") ∧
    bulk_transfer_items items owner notes =
      .error (.validationError "Cannot transfer item with inactive status. Only items with status Normal, Damaged, or Pending Inspection can be transferred.") := by
  constructor
  · unfold itemSave
    rw [if_pos ⟨h1, h2⟩]
  · exact bulk_foldl_frozen owner notes items ([], []) h3

/-- Witness for C10: writing LOST and a new owner in one save fails, and a
bulk transfer over the repair-frozen item fails. -/
theorem frozen_item_owner_save_fails_witness :
    itemSave itemA { itemA with status := ItemStatus.LOST, current_owner := 5 } =
      .error (.validationError "Cannot transfer item with inactive status. Only items with status Normal, Damaged, or Pending Inspection can be transferred.") ∧
    bulk_transfer_items [itemRepair] 9 "" =
      .error (.validationError "Cannot transfer item with inactive status. Only items with status Normal, Damaged, or Pending Inspection can be transferred.") :=
  frozen_item_owner_save_fails itemA
    { itemA with status := ItemStatus.LOST, current_owner := 5 }
    [itemRepair] 9 "" (by decide) (by decide) ⟨itemRepair, by decide⟩

/-- A PENDING ASSIGN request on item 10, for the C4 witness. -/
def reqC4a : Request :=
  { id := 60, request_type := RequestType.ASSIGN, status := RequestStatus.PENDING,
    from_user := 1, to_user := 2, item := 10, notes := "",
    new_status := none, resolved_at := none, expires_at := some 604800,
    original_item_status := none, expiration_extended_until := none,
    manually_expired_by := none, warning_48h_sent := false, warning_24h_sent := false }

/-- A second PENDING request on the same item 10. -/
def reqC4b : Request :=
  { id := 61, request_type := RequestType.RETURN, status := RequestStatus.PENDING,
    from_user := 2, to_user := 3, item := 10, notes := "",
    new_status := none, resolved_at := none, expires_at := some 604800,
    original_item_status := none, expiration_extended_until := none,
    manually_expired_by := none, warning_48h_sent := false, warning_24h_sent := false }

/-- C4: the partial unique constraint unique_pending_request_per_item
preserves the at-most-one-PENDING-per-item invariant on every successful
insert, and when two PENDING creates race on the same item the database
serializes them: the first insert succeeds and the second fails with
IntegrityError. -/
theorem pending_unique_invariant (existing : List Request) (r1 r2 : Request)
    (hinv : atMostOnePending existing)
    (h1 : r1.status = RequestStatus.PENDING) (h2 : r2.status = RequestStatus.PENDING)
    (hsame : r2.item = r1.item)
    (hnone : (existing.any fun x => x.item = r1.item ∧ x.status = RequestStatus.PENDING)
      = false) :
    (∀ r rows, insertPendingUnique existing r = .ok rows → atMostOnePending rows) ∧
    insertPendingUnique existing r1 = .ok (existing ++ [r1]) ∧
    insertPendingUnique (existing ++ [r1]) r2 =
      .error (.integrityError "unique_pending_request_per_item") := by
  refine ⟨?_, ?_, ?_⟩
  · intro r rows hok
    unfold insertPendingUnique at hok
    by_cases hc : r.status = RequestStatus.PENDING ∧
        (existing.any fun x => x.item = r.item ∧ x.status = RequestStatus.PENDING) = true
    · rw [if_pos hc] at hok
      exact absurd hok (by simp)
    · rw [if_neg hc] at hok
      obtain rfl : existing ++ [r] = rows := by injection hok
      intro i
      rw [List.countP_append]
      by_cases hp : r.item = i ∧ r.status = RequestStatus.PENDING
      · obtain ⟨hri, hrp⟩ := hp
        subst hri
        have hany : (existing.any fun x => x.item = r.item ∧ x.status = RequestStatus.PENDING)
            = false := by
          by_cases hb : (existing.any
              fun x => x.item = r.item ∧ x.status = RequestStatus.PENDING) = true
          · exact absurd ⟨hrp, hb⟩ hc
          · exact Bool.eq_false_iff.mpr hb
        simp [List.countP_cons, hrp]
        intro a ha hitem
        have h3 := List.any_eq_false.mp hany a ha
        simpa [hitem] using h3
      · have hone : (List.countP
            (fun x => decide (x.item = i ∧ x.status = RequestStatus.PENDING)) [r]) = 0 := by
          simp [List.countP_cons, hp]
        rw [hone]
        simpa using hinv i
  · simp [insertPendingUnique, hnone]
    intro _ x hx hitem
    have h3 := List.any_eq_false.mp hnone x hx
    simpa [hitem] using h3
  · simp [insertPendingUnique, h2, h1, hsame, List.any_append]

/-- Witness for C4: two PENDING creates on item 10 against an empty table —
the first insert commits, the second hits the constraint. -/
theorem pending_unique_invariant_witness :
    insertPendingUnique [] reqC4a = .ok ([] ++ [reqC4a]) ∧
    insertPendingUnique ([] ++ [reqC4a]) reqC4b =
      .error (.integrityError "unique_pending_request_per_item") :=
  ⟨(pending_unique_invariant [] reqC4a reqC4b (fun i => by simp) rfl rfl rfl rfl).2.1,
   (pending_unique_invariant [] reqC4a reqC4b (fun i => by simp) rfl rfl rfl rfl).2.2⟩

/-- C6 amended: accept of a PENDING RETURN request by a staff or manager
actor succeeds when the required new_status is one of the transferable
statuses NORMAL, DAMAGED or PENDING_INSPECTION: the request becomes
ACCEPTED with resolved_at set, the item's current_owner becomes the
accepting user, the item's status becomes new_status, and exactly one
TransferLog row (old owner → accepting user, referencing the request) is
produced. With new_status LOST or REPAIR the same call fails (see the
counterexample): Item.clean rejects the ownership change. -/
theorem accept_return_active_status (req : Request) (item : Item) (actor : User)
    (ns : ItemStatus) (now : Int)
    (hp : req.status = RequestStatus.PENDING)
    (ht : req.request_type = RequestType.RETURN)
    (ha : actor.is_staff_member ∨ actor.is_manager)
    (hns : ns = ItemStatus.NORMAL ∨ ns = ItemStatus.DAMAGED ∨
      ns = ItemStatus.PENDING_INSPECTION) :
    accept req item actor (some ns) none now =
      .ok ({ req with
             status := RequestStatus.ACCEPTED
             resolved_at := some now
             new_status := some ns },
           { item with current_owner := actor.id, status := ns },
           { item := some item.id, from_user := item.current_owner, to_user := actor.id,
             request := some req.id, notes := req.notes, is_forced := false }) := by
  have ha2 : ¬(req.request_type = RequestType.RETURN ∧
      ¬(actor.is_staff_member ∨ actor.is_manager)) := fun h => h.2 ha
  have hinact : ¬Item.is_inactive { item with current_owner := actor.id, status := ns } := by
    rcases hns with rfl | rfl | rfl <;> simp [Item.is_inactive]
  simp [accept, hp, ht, ha2, itemSave, hinact]
  intro hns2
  rcases ha with ha | ha
  · exact absurd ha hns2
  · exact ha

/-- Witness for C6's amended claim, following the spec scenario: staff
carol accepts bob's RETURN request with new_status = DAMAGED; carol
becomes the owner, the item becomes DAMAGED, the request ACCEPTED, and
one log row bob → carol is appended. -/
theorem accept_return_active_status_witness :
    accept reqReturn itemReturn carol (some ItemStatus.DAMAGED) none 50 =
      .ok ({ reqReturn with
             status := RequestStatus.ACCEPTED
             resolved_at := some 50
             new_status := some ItemStatus.DAMAGED },
           { itemReturn with current_owner := 3, status := ItemStatus.DAMAGED },
           { item := some 30, from_user := 2, to_user := 3,
             request := some 30, notes := "", is_forced := false }) :=
  accept_return_active_status reqReturn itemReturn carol ItemStatus.DAMAGED 50
    rfl rfl (Or.inl rfl) (Or.inr (Or.inl rfl))

/-- The request row that create_return_request persists for `item` at time
`now` with fresh id `nid`: RETURN, PENDING, expires in 7 days, and —
because TransferRequest.save runs before the view flips the item to
PENDING_INSPECTION — original_item_status capturing the item's status at
creation time. -/
def returnRequestRow (item : Item) (requester staff : User) (notes : String)
    (now : Int) (nid : Nat) : Request :=
  { id := nid, request_type := RequestType.RETURN, status := RequestStatus.PENDING,
    from_user := requester.id, to_user := staff.id, item := item.id, notes := notes,
    new_status := none, resolved_at := none, expires_at := some (now + 7 * secPerDay),
    original_item_status := some item.status, expiration_extended_until := none,
    manually_expired_by := none, warning_48h_sent := false, warning_24h_sent := false }

/-- C2: creating a RETURN request captures the item's creation-time status
into original_item_status, and expiring that request while the item is
still PENDING_INSPECTION restores the item to exactly the captured status
(the final item equals the original `item` field for field, whatever its
status was — not a hardcoded NORMAL). -/
theorem return_expire_roundtrip (existing : List Request) (item : Item)
    (requester staff : User) (rest : List User) (notes : String)
    (now now2 : Int) (nid : Nat)
    (hown : item.current_owner = requester.id)
    (hnone : (existing.any fun x => x.item = item.id ∧ x.status = RequestStatus.PENDING)
      = false) :
    create_return_request_view existing item requester (staff :: rest) notes now nid =
      .ok (returnRequestRow item requester staff notes now nid,
           { item with status := ItemStatus.PENDING_INSPECTION },
           existing ++ [returnRequestRow item requester staff notes now nid]) ∧
    (returnRequestRow item requester staff notes now nid).original_item_status
      = some item.status ∧
    expire (returnRequestRow item requester staff notes now nid)
        { item with status := ItemStatus.PENDING_INSPECTION } none now2 =
      .ok ({ returnRequestRow item requester staff notes now nid with
             status := RequestStatus.EXPIRED
             resolved_at := some now2 },
           item) := by
  have hnone2 : ¬∃ x ∈ existing, x.item = item.id ∧ x.status = RequestStatus.PENDING := by
    simpa using hnone
  refine ⟨?_, rfl, ?_⟩
  · simp [create_return_request_view, requestSaveNew, insertPendingUnique, itemSave,
      Item.is_inactive, hown, hnone2, returnRequestRow]
  · simp [expire, returnRequestRow, itemSave, Item.is_inactive]

/-- An item owned by bob in DAMAGED condition, for the C2 witness. -/
def itemD : Item :=
  { id := 80, status := ItemStatus.DAMAGED, current_owner := 2, current_location := none }

/-- Witness for C2: bob returns his DAMAGED item; the sweep-expired request
reverts it to DAMAGED (not NORMAL). -/
theorem return_expire_roundtrip_witness :
    create_return_request_view [] itemD bob [carol] "x" 0 9 =
      .ok (returnRequestRow itemD bob carol "x" 0 9,
           { itemD with status := ItemStatus.PENDING_INSPECTION },
           [] ++ [returnRequestRow itemD bob carol "x" 0 9]) ∧
    (returnRequestRow itemD bob carol "x" 0 9).original_item_status
      = some ItemStatus.DAMAGED ∧
    expire (returnRequestRow itemD bob carol "x" 0 9)
        { itemD with status := ItemStatus.PENDING_INSPECTION } none 999 =
      .ok ({ returnRequestRow itemD bob carol "x" 0 9 with
             status := RequestStatus.EXPIRED
             resolved_at := some 999 },
           itemD) :=
  return_expire_roundtrip [] itemD bob carol [] "x" 0 999 9 rfl rfl

/-- C7: cancel (modelled from the spec, since TransferRequest.cancel is
absent from src/transfers/models.py although transfers/views.py calls it)
on a PENDING request by either party succeeds as a terminal transition:
the request leaves PENDING permanently (status REJECTED, resolved_at
set), and a RETURN item still at PENDING_INSPECTION reverts to NORMAL —
and any successful reject of the same request produces exactly the same
status, resolved_at and item effect, the two differing only in actor
authorization and notes wording. -/
theorem cancel_pending_like_reject (req : Request) (item : Item) (actor : User)
    (reason : Option String) (now : Int)
    (hp : req.status = RequestStatus.PENDING)
    (hparty : actor.id = req.from_user ∨ actor.id = req.to_user) :
    cancel req item actor reason now =
      .ok ({ req with
             status := RequestStatus.REJECTED
             resolved_at := some now
             notes := match reason with
                      | some r => (req.notes ++ "\n[CANCELLED] " ++ r).trim
                      | none => req.notes },
           if req.request_type = RequestType.RETURN ∧
               item.status = ItemStatus.PENDING_INSPECTION then
             { item with status := ItemStatus.NORMAL }
           else item) ∧
    (∀ actor2 r2 i2, reject req item actor2 reason now = .ok (r2, i2) →
      r2.status = RequestStatus.REJECTED ∧ r2.resolved_at = some now ∧
      i2 = (if req.request_type = RequestType.RETURN ∧
                item.status = ItemStatus.PENDING_INSPECTION then
              { item with status := ItemStatus.NORMAL }
            else item)) := by
  have hauth : ¬(actor.id ≠ req.from_user ∧ actor.id ≠ req.to_user) := by
    rcases hparty with h | h
    · exact fun hc => hc.1 h
    · exact fun hc => hc.2 h
  constructor
  · unfold cancel
    rw [if_neg (by simp [hp])]
    rw [if_neg hauth]
    by_cases hb : req.request_type = RequestType.RETURN ∧
        item.status = ItemStatus.PENDING_INSPECTION
    · simp [hb, itemSave, Item.is_inactive]
    · simp [hb]
  · intro a2 r2 i2 hrj
    unfold reject at hrj
    rw [if_neg (by simp [hp])] at hrj
    by_cases hc1 : req.request_type = RequestType.RETURN ∧
        ¬(a2.is_staff_member ∨ a2.is_manager)
    · rw [if_pos hc1] at hrj
      cases hrj
    · rw [if_neg hc1] at hrj
      by_cases hc2 : req.request_type = RequestType.ASSIGN ∧ a2.id ≠ req.to_user
      · rw [if_pos hc2] at hrj
        cases hrj
      · rw [if_neg hc2] at hrj
        by_cases hb : req.request_type = RequestType.RETURN ∧
            item.status = ItemStatus.PENDING_INSPECTION
        · simp [hb, itemSave, Item.is_inactive] at hrj
          obtain ⟨h4, h5⟩ := hrj
          subst h4
          subst h5
          simp [hb]
        · simp [hb] at hrj
          obtain ⟨h4, h5⟩ := hrj
          subst h4
          subst h5
          simp [hb]

/-- Witness for C7: bob (the from_user) cancels his PENDING RETURN request;
the item under inspection reverts to NORMAL, and staff carol's reject of
the same request yields the identical status, resolved_at and item effect. -/
theorem cancel_pending_like_reject_witness :
    cancel reqReturn itemReturn bob (some "mind changed") 60 =
      .ok ({ reqReturn with
             status := RequestStatus.REJECTED
             resolved_at := some 60
             notes := (("" ++ "\n[CANCELLED] " ++ "mind changed").trim : String) },
           { itemReturn with status := ItemStatus.NORMAL }) ∧
    ({ reqReturn with
       status := RequestStatus.REJECTED
       resolved_at := some 60
       notes := (("" ++ "\n[REJECTED] " ++ "mind changed").trim : String) } :
        Request).status = RequestStatus.REJECTED ∧
    (some 60 : Option Int) = some 60 ∧
    ({ itemReturn with status := ItemStatus.NORMAL } : Item) =
      { itemReturn with status := ItemStatus.NORMAL } := by
  refine ⟨?_, ?_⟩
  · have h := (cancel_pending_like_reject reqReturn itemReturn bob (some "mind changed") 60
      rfl (Or.inl rfl)).1
    simpa using h
  · have h := (cancel_pending_like_reject reqReturn itemReturn bob (some "mind changed") 60
      rfl (Or.inl rfl)).2 carol
      { reqReturn with
        status := RequestStatus.REJECTED
        resolved_at := some 60
        notes := (("" ++ "\n[REJECTED] " ++ "mind changed").trim : String) }
      { itemReturn with status := ItemStatus.NORMAL } rfl
    exact ⟨h.1, rfl, by simp⟩

end Kurutracker
